import Mathlib

/-!
Verification of the launchpad backend's pricing, instruction-construction,
lifecycle-gating and account-decoding logic, shallowly embedded from the
TypeScript route handlers:
  - src/routes/buy-token/buy-token.ts        (buy route)
  - the sell route (router.post "/sell")
  - src/routes/graduate/route.ts             (graduate route)
  - src/routes/generate-safe/route.ts        (generate SAFE route)
  - src/routes/check-and-generate-safe/route.ts
  - src/routes/current-price.ts              (decodeLaunchpadState)
JavaScript BigInt values are modelled as natural numbers (all quantities
involved are non-negative unsigned reserve/amount values; BigInt division
truncates toward zero, which on non-negative operands is Nat division).
Each route handler becomes a pure function from the request body and the
fetched remote state (passed in as an `Option`, mirroring
`fetchMaybeLaunchpadState`) to an outcome value; outward effects (the
transaction submission primitive, the document-generation bridge call)
are represented by dedicated outcome constructors, so "the primitive is
never called" is expressed as "the outcome is not that constructor".
-/

namespace Launchpad

/-- Modelled from the spec: the `LaunchpadStatus` enum exported by the
generated client (dist/js-client, not present under src/); spec section 3
gives the phases Trading, Transition, Safe. -/
inductive LaunchpadStatus where
  | Trading
  | Transition
  | Safe
deriving DecidableEq, Repr

/-- The reverse enum lookup `LaunchpadStatus[status]` used to name the
current status in error messages. -/
def statusName : LaunchpadStatus → String
  | .Trading => "Trading"
  | .Transition => "Transition"
  | .Safe => "Safe"

/-- Addresses.  Plain base58 strings arrive in requests and fetched state;
program-derived addresses (`getProgramDerivedAddress`) and associated token
accounts (`getAssociatedTokenAddress`) are deterministic pure derivations
(spec section 4.3), modelled as constructors recording their seeds. -/
inductive Address where
  | base58 (s : String)
  | pda (programAddress : String) (tag : String) (stateAddress : String)
  | ata (mint : String) (owner : String)
deriving DecidableEq, Repr

/-- Modelled from the spec: `LAUNCHPAD_PROGRAM_ADDRESS` is exported by the
generated client (dist/js-client, not present under src/); its concrete
base58 value is never consulted by the properties proved here. -/
def LAUNCHPAD_PROGRAM_ADDRESS : String := "LaunchpadProgram11111111111111111111111111"

def SYSTEM_PROGRAM_ID : String := "11111111111111111111111111111111"

/-- `TOKEN_PROGRAM_ID.toBase58()` from @solana/spl-token. -/
def TOKEN_PROGRAM_ID : String := "TokenkegQfeZyiNwAJbNbGKPFXCWuBvf9Ss623VQ5DA"

/-- `ASSOCIATED_TOKEN_PROGRAM_ID.toBase58()` from @solana/spl-token. -/
def ASSOCIATED_TOKEN_PROGRAM : String := "ATokenGPvbdGVxr1b2hvZbsiqW5xWH25efTNsLJA8knL"

def LAMPORTS_PER_SOL : Nat := 1000000000

/-- Modelled from the spec: the fetched `LaunchpadState` account data shape
of the generated client (dist/js-client, not present under src/); field set
per spec section 3 and the field accesses in the route handlers. -/
structure LaunchpadState where
  status : LaunchpadStatus
  virtualSolReserves : Nat
  virtualTokenReserves : Nat
  k : Nat
  mint : Option String
  tokenVault : Option String
  solRaised : Nat
  tokensSold : Nat
  solRaiseTarget : Nat
  tokensForSale : Nat
  platformAuthority : String
deriving DecidableEq, Repr

/-- One entry of an instruction's ordered account list. -/
structure AccountMeta where
  pubkey : Address
  isSigner : Bool
  isWritable : Bool
deriving DecidableEq, Repr

/-- An instruction descriptor.  The opaque instruction-data encoders of the
generated client are injected binary contracts; what this core passes to
them is the single `tokenAmount` field (buy/sell) or nothing (graduate),
recorded here as `dataTokenAmount`. -/
structure Instruction where
  programId : String
  keys : List AccountMeta
  dataTokenAmount : Option Nat
deriving DecidableEq, Repr

/-! ## Buy route (src/routes/buy-token/buy-token.ts) -/

structure BuyRequestBody where
  launchpadStateAddress : String
  solAmount : Nat
  buyer : String
deriving DecidableEq, Repr

/-- `tokenAmountWithDecimals` of the buy route, line 86:
`(solAmountLamports * virtualTokenReserves) / (virtualSolReserves + solAmountLamports)`. -/
def tokenAmountWithDecimalsBuy (virtualSolReserves virtualTokenReserves solAmountLamports : Nat) : Nat :=
  solAmountLamports * virtualTokenReserves / (virtualSolReserves + solAmountLamports)

inductive BuyOutcome where
  | stateNotFound
  | notInitialized
  | zeroReserves
  | amountTooLow
  | ok (instruction : Instruction)
deriving DecidableEq, Repr

/-- The buy route's fixed account list (`buyTokenKeys`, buy-token.ts lines 135-146). -/
def buyTokenKeys (stateAddress mintAddress tokenVaultAddress buyer : String) : List AccountMeta :=
  [ ⟨.base58 stateAddress, false, true⟩,
    ⟨.pda LAUNCHPAD_PROGRAM_ADDRESS "launchpad_authority" stateAddress, false, false⟩,
    ⟨.pda LAUNCHPAD_PROGRAM_ADDRESS "sol_vault" stateAddress, false, true⟩,
    ⟨.base58 tokenVaultAddress, false, true⟩,
    ⟨.base58 mintAddress, false, true⟩,
    ⟨.base58 buyer, true, true⟩,
    ⟨.ata mintAddress buyer, false, true⟩,
    ⟨.base58 SYSTEM_PROGRAM_ID, false, false⟩,
    ⟨.base58 TOKEN_PROGRAM_ID, false, false⟩,
    ⟨.base58 ASSOCIATED_TOKEN_PROGRAM, false, false⟩ ]

/-- The body of the buy route handler (`router.post "/buy"`) after the state
fetch succeeded. -/
def buildBuyWithState (req : BuyRequestBody) (st : LaunchpadState) : BuyOutcome :=
  match st.mint, st.tokenVault with
    | some mintAddress, some tokenVaultAddress =>
      if st.virtualSolReserves = 0 ∨ st.virtualTokenReserves = 0 then
        .zeroReserves
      else
        if tokenAmountWithDecimalsBuy st.virtualSolReserves st.virtualTokenReserves
             (req.solAmount * LAMPORTS_PER_SOL) = 0 then
          .amountTooLow
        else
          .ok { programId := LAUNCHPAD_PROGRAM_ADDRESS,
                keys := buyTokenKeys req.launchpadStateAddress mintAddress tokenVaultAddress req.buyer,
                dataTokenAmount :=
                  some (tokenAmountWithDecimalsBuy st.virtualSolReserves st.virtualTokenReserves
                          (req.solAmount * LAMPORTS_PER_SOL) / 1000000) }
    | _, _ => .notInitialized

/-- The buy route handler, with the fetched state passed in as the result of
`fetchMaybeLaunchpadState`. -/
def buildBuy (req : BuyRequestBody) (fetched : Option LaunchpadState) : BuyOutcome :=
  match fetched with
  | none => .stateNotFound
  | some st => buildBuyWithState req st

/-- The raw token amount encoded in a successful buy outcome's instruction. -/
def buyRaw : BuyOutcome → Option Nat
  | .ok instr => instr.dataTokenAmount
  | _ => none

/-! ## Sell route (router.post "/sell") -/

/-- A sell request; the two optional amount fields are numeric values, and
JavaScript truthiness of a numeric value is being nonzero. -/
structure SellRequestBody where
  launchpadStateAddress : String
  tokenAmount : Option Nat
  solAmount : Option Nat
  seller : String
deriving DecidableEq, Repr

/-- JavaScript truthiness of an optional numeric field: absent and zero are
falsy (`!body.tokenAmount`). -/
def truthy : Option Nat → Bool
  | none => false
  | some n => n ≠ 0

/-- `tokenAmountWithDecimals` of the sell route, line 135:
`(solAmountLamports * virtualTokenReserves) / (virtualSolReserves - solAmountLamports)`. -/
def tokenAmountWithDecimalsSell (virtualSolReserves virtualTokenReserves solAmountLamports : Nat) : Nat :=
  solAmountLamports * virtualTokenReserves / (virtualSolReserves - solAmountLamports)

inductive SellOutcome where
  | neitherAmountProvided
  | bothAmountsProvided
  | stateNotFound
  | notInitialized
  | zeroReserves
  | exceedsReserves
  | amountTooLow
  | ok (instruction : Instruction)
deriving DecidableEq, Repr

/-- The sell route's fixed account list (`sellTokenKeys`, lines 184-203). -/
def sellTokenKeys (stateAddress mintAddress tokenVaultAddress seller : String) : List AccountMeta :=
  [ ⟨.base58 stateAddress, false, true⟩,
    ⟨.pda LAUNCHPAD_PROGRAM_ADDRESS "sol_vault" stateAddress, false, true⟩,
    ⟨.base58 tokenVaultAddress, false, true⟩,
    ⟨.base58 mintAddress, false, true⟩,
    ⟨.base58 seller, true, true⟩,
    ⟨.ata mintAddress seller, false, true⟩,
    ⟨.base58 SYSTEM_PROGRAM_ID, false, false⟩,
    ⟨.base58 TOKEN_PROGRAM_ID, false, false⟩,
    ⟨.base58 ASSOCIATED_TOKEN_PROGRAM, false, false⟩ ]

/-- The body of the sell route handler after validation passed and the state
fetch succeeded.  Path selection (line 103) tests `solAmount !== undefined`,
i.e. presence rather than truthiness. -/
def buildSellWithState (req : SellRequestBody) (st : LaunchpadState) : SellOutcome :=
  match st.mint, st.tokenVault with
      | some mintAddress, some tokenVaultAddress =>
        match req.solAmount with
        | some a =>
          if st.virtualSolReserves = 0 ∨ st.virtualTokenReserves = 0 then
            .zeroReserves
          else if st.virtualSolReserves ≤ a * LAMPORTS_PER_SOL then
            .exceedsReserves
          else
            if tokenAmountWithDecimalsSell st.virtualSolReserves st.virtualTokenReserves
                 (a * LAMPORTS_PER_SOL) = 0 then
              .amountTooLow
            else
              .ok { programId := LAUNCHPAD_PROGRAM_ADDRESS,
                    keys := sellTokenKeys req.launchpadStateAddress mintAddress tokenVaultAddress req.seller,
                    dataTokenAmount :=
                      some (tokenAmountWithDecimalsSell st.virtualSolReserves st.virtualTokenReserves
                              (a * LAMPORTS_PER_SOL) / 1000000) }
        | none =>
          match req.tokenAmount with
          | some t =>
            .ok { programId := LAUNCHPAD_PROGRAM_ADDRESS,
                  keys := sellTokenKeys req.launchpadStateAddress mintAddress tokenVaultAddress req.seller,
                  dataTokenAmount := some t }
          | none => .neitherAmountProvided
      | _, _ => .notInitialized

/-- The sell route handler (`router.post "/sell"`).  Validation of the two
amount fields (lines 72-78, by JavaScript truthiness) happens before the
state fetch. -/
def buildSell (req : SellRequestBody) (fetched : Option LaunchpadState) : SellOutcome :=
  if !(truthy req.tokenAmount) && !(truthy req.solAmount) then
    .neitherAmountProvided
  else if truthy req.tokenAmount && truthy req.solAmount then
    .bothAmountsProvided
  else
    match fetched with
    | none => .stateNotFound
    | some st => buildSellWithState req st

/-! ## Graduate route (src/routes/graduate/route.ts) -/

structure GraduateRequestBody where
  launchpadStateAddress : String
deriving DecidableEq, Repr

inductive GraduateOutcome where
  | stateNotFound
  | wrongStatus (current : LaunchpadStatus) (message : String)
  | authorityMismatch (expected actual : String)
  | submit (instruction : Instruction) (signer : String)
deriving DecidableEq, Repr

/-- The body of the graduate route handler after the state fetch succeeded.
`heldAuthority` is the base58 address of the process-wide
`PLATFORM_AUTHORITY_KEYPAIR`; reaching the submission primitive
(`sendAndConfirmTransaction`, lines 124-132) is modelled by the `submit`
outcome carrying the assembled instruction (keys, lines 95-98). -/
def graduateWithState (req : GraduateRequestBody) (heldAuthority : String)
    (st : LaunchpadState) : GraduateOutcome :=
  if st.status ≠ .Transition then
    .wrongStatus st.status
      ("Launchpad must be in Transition state to graduate. Current state: " ++ statusName st.status)
  else if st.platformAuthority ≠ heldAuthority then
    .authorityMismatch st.platformAuthority heldAuthority
  else
    .submit { programId := LAUNCHPAD_PROGRAM_ADDRESS,
              keys := [ ⟨.base58 req.launchpadStateAddress, false, true⟩,
                        ⟨.base58 heldAuthority, true, true⟩ ],
              dataTokenAmount := none }
      heldAuthority

/-- The graduate route handler (`router.post "/"` in graduate/route.ts). -/
def graduate (req : GraduateRequestBody) (heldAuthority : String)
    (fetched : Option LaunchpadState) : GraduateOutcome :=
  match fetched with
  | none => .stateNotFound
  | some st => graduateWithState req heldAuthority st

/-! ## Generate-SAFE routes -/

/-- The `blockchainData` payload sent to the document-generation bridge. -/
structure BridgePayload where
  launchpadAddress : String
  solRaised : Nat
  tokensSold : Nat
  solTarget : Nat
  tokensForSale : Nat
deriving DecidableEq, Repr

inductive GenerateSafeOutcome where
  | stateNotFound
  | wrongStatus (current : LaunchpadStatus) (message : String)
  | callBridge (payload : BridgePayload)
deriving DecidableEq, Repr

/-- The body of the generate-safe route handler (generate-safe/route.ts)
after the state fetch succeeded.  Reaching the document-generation bridge
call (line 96) is modelled by `callBridge`. -/
def generateSafeWithState (req : GraduateRequestBody) (st : LaunchpadState) : GenerateSafeOutcome :=
  if st.status ≠ .Transition then
    .wrongStatus st.status
      ("Launchpad must be in Transition state to generate SAFE. Current state: " ++ statusName st.status)
  else
    .callBridge ⟨req.launchpadStateAddress, st.solRaised, st.tokensSold,
                 st.solRaiseTarget, st.tokensForSale⟩

/-- The generate-safe route handler. -/
def generateSafe (req : GraduateRequestBody) (fetched : Option LaunchpadState) : GenerateSafeOutcome :=
  match fetched with
  | none => .stateNotFound
  | some st => generateSafeWithState req st

inductive CheckAndGenerateOutcome where
  | cachedDocument (pdfUrl filename : String)
  | stateNotFound
  | callBridge (payload : BridgePayload)
  | noAction (current : LaunchpadStatus)
deriving DecidableEq, Repr

/-- The body of the check-and-generate-safe route handler after the cache
missed and the state fetch succeeded: the bridge is called (line 66) when
the status is Transition or Safe (line 61), and any other status yields a
success "no action needed" response (line 137). -/
def checkAndGenerateWithState (req : GraduateRequestBody) (st : LaunchpadState) :
    CheckAndGenerateOutcome :=
  if st.status = .Transition ∨ st.status = .Safe then
    .callBridge ⟨req.launchpadStateAddress, st.solRaised, st.tokensSold,
                 st.solRaiseTarget, st.tokensForSale⟩
  else
    .noAction st.status

/-- The check-and-generate-safe route handler (check-and-generate-safe/route.ts).
`cached` is the `safeGeneratedCache` entry for the requested address. -/
def checkAndGenerateSafe (req : GraduateRequestBody) (cached : Option (String × String))
    (fetched : Option LaunchpadState) : CheckAndGenerateOutcome :=
  match cached with
  | some doc => .cachedDocument doc.1 doc.2
  | none =>
    match fetched with
    | none => .stateNotFound
    | some st => checkAndGenerateWithState req st

/-! ## Account-layout decoder (src/routes/current-price.ts) -/

/-- Little-endian byte-list to natural number, the semantics of
`new BN(bytes, 'le')` on the listed bytes. -/
def leBytesToNat (bs : List Nat) : Nat :=
  bs.foldr (fun b acc => b + 256 * acc) 0

/-- `Buffer.prototype.readUInt32LE(offset)`: throws a RangeError when fewer
than four bytes remain at `offset`, otherwise reads four bytes little-endian. -/
def readUInt32LE (data : List Nat) (offset : Nat) : Except String Nat :=
  if offset + 4 ≤ data.length then
    .ok (leBytesToNat ((data.drop offset).take 4))
  else
    .error "readUInt32LE out of range"

/-- `Buffer.prototype.slice(offset, offset + n)`: clamps to the buffer's
bounds and never throws, so a truncated buffer yields fewer bytes. -/
def bufferSlice (data : List Nat) (offset n : Nat) : List Nat :=
  (data.drop offset).take n

/-- The decoded spot-price model `{ tokensSoldRaw, initialPriceLamports, slope }`. -/
structure SpotPriceModel where
  initialPriceLamports : Nat
  slope : Nat
  tokensSoldRaw : Nat
deriving DecidableEq, Repr

/-- `decodeLaunchpadState` (current-price.ts lines 28-73): skip the 8-byte
discriminator and 32-byte authority, skip three length-prefixed strings
(each `readUInt32LE` length then that many bytes), skip totalSupply and
tokensForSale (8 bytes each), read the 8-byte initialPrice and 16-byte
slope, skip solRaised (8 bytes), read the 8-byte tokensSold. -/
def decodeLaunchpadState (data : List Nat) : Except String SpotPriceModel := do
  let offset0 := 8 + 32
  let len1 ← readUInt32LE data offset0
  let offset1 := offset0 + 4 + len1
  let len2 ← readUInt32LE data offset1
  let offset2 := offset1 + 4 + len2
  let len3 ← readUInt32LE data offset2
  let offset3 := offset2 + 4 + len3
  let offset4 := offset3 + 8 + 8
  let initialPriceLamports := leBytesToNat (bufferSlice data offset4 8)
  let offset5 := offset4 + 8
  let slope := leBytesToNat (bufferSlice data offset5 16)
  let offset6 := offset5 + 16 + 8
  let tokensSoldRaw := leBytesToNat (bufferSlice data offset6 8)
  return { initialPriceLamports := initialPriceLamports, slope := slope,
           tokensSoldRaw := tokensSoldRaw }

/-! ## Concrete fixtures -/

/-- The spec's concrete buy scenario state: 30 SOL of virtual SOL reserves
and 1_073_000_000_000_000 scaled virtual token reserves. -/
def stConcrete : LaunchpadState :=
  { status := .Trading,
    virtualSolReserves := 30000000000,
    virtualTokenReserves := 1073000000000000,
    k := 30000000000 * 1073000000000000,
    mint := some "Mint11111111111111111111111111111111111111",
    tokenVault := some "Vau1t1111111111111111111111111111111111111",
    solRaised := 0, tokensSold := 0, solRaiseTarget := 0, tokensForSale := 0,
    platformAuthority := "Auth11111111111111111111111111111111111111" }

/-- Buy one whole SOL. -/
def reqBuy1 : BuyRequestBody :=
  ⟨"State1111111111111111111111111111111111111", 1, "Buyer1111111111111111111111111111111111111"⟩

/-- The instruction the buy route returns on `reqBuy1` against `stConcrete`. -/
def instrBuy1 : Instruction :=
  { programId := LAUNCHPAD_PROGRAM_ADDRESS,
    keys := buyTokenKeys "State1111111111111111111111111111111111111"
      "Mint11111111111111111111111111111111111111"
      "Vau1t1111111111111111111111111111111111111"
      "Buyer1111111111111111111111111111111111111",
    dataTokenAmount := some 34612903 }

/-- A state whose token reserves are small relative to the SOL reserves, so a
one-SOL buy yields a positive scaled amount below one million. -/
def stTiny : LaunchpadState :=
  { status := .Trading,
    virtualSolReserves := 1000000000,
    virtualTokenReserves := 1000,
    k := 1000000000 * 1000,
    mint := some "Mint11111111111111111111111111111111111111",
    tokenVault := some "Vau1t1111111111111111111111111111111111111",
    solRaised := 0, tokensSold := 0, solRaiseTarget := 0, tokensForSale := 0,
    platformAuthority := "Auth11111111111111111111111111111111111111" }

/-! ## Elimination lemmas characterising successful outcomes -/

/-- A successful buy outcome forces the initialized-state and positivity
checks and determines the returned instruction. -/
theorem buildBuy_ok_elim (req : BuyRequestBody) (st : LaunchpadState) (instr : Instruction)
    (h : buildBuy req (some st) = .ok instr) :
    ∃ m v, st.mint = some m ∧ st.tokenVault = some v ∧
      st.virtualSolReserves ≠ 0 ∧ st.virtualTokenReserves ≠ 0 ∧
      tokenAmountWithDecimalsBuy st.virtualSolReserves st.virtualTokenReserves
        (req.solAmount * LAMPORTS_PER_SOL) ≠ 0 ∧
      instr = { programId := LAUNCHPAD_PROGRAM_ADDRESS,
                keys := buyTokenKeys req.launchpadStateAddress m v req.buyer,
                dataTokenAmount :=
                  some (tokenAmountWithDecimalsBuy st.virtualSolReserves st.virtualTokenReserves
                          (req.solAmount * LAMPORTS_PER_SOL) / 1000000) } := by
  replace h : buildBuyWithState req st = .ok instr := h
  unfold buildBuyWithState at h
  split at h
  next m v hm hv =>
    split at h
    · simp at h
    next hz =>
      push_neg at hz
      split at h
      next hs => simp at h
      next hs =>
        refine ⟨m, v, hm, hv, hz.1, hz.2, hs, ?_⟩
        injection h with h
        exact h.symm
  next => simp at h

/-- A successful sell outcome forces the validation and initialized-state
checks, and either took the sell-by-SOL path (with the reserve bound and
positivity checks) or the sell-by-token-amount path. -/
theorem buildSell_ok_elim (req : SellRequestBody) (st : LaunchpadState) (instr : Instruction)
    (h : buildSell req (some st) = .ok instr) :
    ∃ m v, st.mint = some m ∧ st.tokenVault = some v ∧
      ((∃ a, req.solAmount = some a ∧
          st.virtualSolReserves ≠ 0 ∧ st.virtualTokenReserves ≠ 0 ∧
          a * LAMPORTS_PER_SOL < st.virtualSolReserves ∧
          tokenAmountWithDecimalsSell st.virtualSolReserves st.virtualTokenReserves
            (a * LAMPORTS_PER_SOL) ≠ 0 ∧
          instr = { programId := LAUNCHPAD_PROGRAM_ADDRESS,
                    keys := sellTokenKeys req.launchpadStateAddress m v req.seller,
                    dataTokenAmount :=
                      some (tokenAmountWithDecimalsSell st.virtualSolReserves
                              st.virtualTokenReserves (a * LAMPORTS_PER_SOL) / 1000000) }) ∨
       (req.solAmount = none ∧ ∃ t, req.tokenAmount = some t ∧
          instr = { programId := LAUNCHPAD_PROGRAM_ADDRESS,
                    keys := sellTokenKeys req.launchpadStateAddress m v req.seller,
                    dataTokenAmount := some t })) := by
  unfold buildSell at h
  split at h
  · simp at h
  split at h
  · simp at h
  replace h : buildSellWithState req st = .ok instr := h
  unfold buildSellWithState at h
  split at h
  next m v hm hv =>
    refine ⟨m, v, hm, hv, ?_⟩
    split at h
    next a ha =>
      split at h
      · simp at h
      next hz =>
        push_neg at hz
        split at h
        next hr => simp at h
        next hr =>
          split at h
          next hs => simp at h
          next hs =>
            refine .inl ⟨a, ha, hz.1, hz.2, Nat.lt_of_not_le hr, hs, ?_⟩
            injection h with h
            exact h.symm
    next hnone =>
      split at h
      next t ht =>
        refine .inr ⟨hnone, t, ht, ?_⟩
        injection h with h
        exact h.symm
      next => simp at h
  next => simp at h

/-- A submitted graduation forces the Transition status and matching
authority, and determines the signed instruction. -/
theorem graduate_submit_elim (req : GraduateRequestBody) (held : String)
    (st : LaunchpadState) (instr : Instruction) (signer : String)
    (h : graduate req held (some st) = .submit instr signer) :
    st.status = .Transition ∧ st.platformAuthority = held ∧ signer = held ∧
    instr = { programId := LAUNCHPAD_PROGRAM_ADDRESS,
              keys := [ ⟨.base58 req.launchpadStateAddress, false, true⟩,
                        ⟨.base58 held, true, true⟩ ],
              dataTokenAmount := none } := by
  replace h : graduateWithState req held st = .submit instr signer := h
  unfold graduateWithState at h
  split at h
  next hst => simp at h
  next hst =>
    split at h
    next hauth => simp at h
    next hauth =>
      refine ⟨not_not.mp hst, not_not.mp hauth, ?_, ?_⟩
      · injection h with h1 h2
        exact h2.symm
      · injection h with h1 h2
        exact h1.symm

/-! ## C1: buy amount formula -/

/-- C1: every buy instruction's raw token amount is the scaled constant-product
quotient `(Δx · y) / (x + Δx)` divided by the 10^6 decimal scale factor, where
`Δx = solAmount * LAMPORTS_PER_SOL`; on the spec's concrete scenario the scaled
amount is 34_612_903_225_806 and the raw amount 34_612_903. -/
theorem buy_amount_matches_constant_product :
    (∀ (req : BuyRequestBody) (st : LaunchpadState) (instr : Instruction),
        buildBuy req (some st) = .ok instr →
        instr.dataTokenAmount =
          some (tokenAmountWithDecimalsBuy st.virtualSolReserves st.virtualTokenReserves
                  (req.solAmount * LAMPORTS_PER_SOL) / 1000000)) ∧
    tokenAmountWithDecimalsBuy 30000000000 1073000000000000 1000000000 = 34612903225806 ∧
    buyRaw (buildBuy reqBuy1 (some stConcrete)) = some 34612903 := by
  refine ⟨?_, by decide, by decide⟩
  intro req st instr h
  obtain ⟨m, v, hm, hv, hx, hy, hs, hi⟩ := buildBuy_ok_elim req st instr h
  rw [hi]

/-- Witness for `buy_amount_matches_constant_product`: the concrete scenario
instantiates its universally quantified part. -/
theorem buy_amount_matches_constant_product_w :
    buildBuy reqBuy1 (some stConcrete) = .ok instrBuy1 ∧
    instrBuy1.dataTokenAmount =
      some (tokenAmountWithDecimalsBuy stConcrete.virtualSolReserves
              stConcrete.virtualTokenReserves (reqBuy1.solAmount * LAMPORTS_PER_SOL) / 1000000) :=
  ⟨by decide, buy_amount_matches_constant_product.1 reqBuy1 stConcrete instrBuy1 (by decide)⟩

/-! ## C2: positivity check -/

/-- C2 counterexample: against `stTiny` a one-SOL buy returns an instruction
whose raw token amount is zero — the scaled amount is 500, which passes the
route's positivity check, and 500 / 10^6 = 0 is placed in the instruction.
This refutes the claim that every returned buy instruction carries a strictly
positive raw amount. -/
theorem buy_instruction_raw_amount_can_be_zero :
    buyRaw (buildBuy reqBuy1 (some stTiny)) = some 0 ∧
    tokenAmountWithDecimalsBuy 1000000000 1000 1000000000 = 500 := by decide

/-- C2 amended: the positivity check guards the scaled amount, not the raw
amount: a returned buy (or sell-by-SOL) instruction guarantees the scaled
quotient is strictly positive, and a zero-SOL buy is rejected; the raw amount
after dividing by 10^6 may still be zero. -/
theorem buy_sell_positivity_checked_on_scaled_amount :
    (∀ (req : BuyRequestBody) (st : LaunchpadState) (instr : Instruction),
        buildBuy req (some st) = .ok instr →
        0 < tokenAmountWithDecimalsBuy st.virtualSolReserves st.virtualTokenReserves
              (req.solAmount * LAMPORTS_PER_SOL)) ∧
    (∀ (req : BuyRequestBody) (st : LaunchpadState) (instr : Instruction),
        req.solAmount = 0 → buildBuy req (some st) ≠ .ok instr) ∧
    (∀ (req : SellRequestBody) (st : LaunchpadState) (a : Nat) (instr : Instruction),
        req.solAmount = some a → buildSell req (some st) = .ok instr →
        0 < tokenAmountWithDecimalsSell st.virtualSolReserves st.virtualTokenReserves
              (a * LAMPORTS_PER_SOL)) := by
  refine ⟨?_, ?_, ?_⟩
  · intro req st instr h
    obtain ⟨m, v, hm, hv, hx, hy, hs, hi⟩ := buildBuy_ok_elim req st instr h
    exact Nat.pos_of_ne_zero hs
  · intro req st instr h0 h
    obtain ⟨m, v, hm, hv, hx, hy, hs, hi⟩ := buildBuy_ok_elim req st instr h
    exact hs (by simp [tokenAmountWithDecimalsBuy, h0])
  · intro req st a instr ha h
    obtain ⟨m, v, hm, hv, hcase⟩ := buildSell_ok_elim req st instr h
    rcases hcase with ⟨a', ha', hx, hy, hr, hs, hi⟩ | ⟨hnone, t, ht, hi⟩
    · rw [ha] at ha'
      injection ha' with ha'
      subst ha'
      exact Nat.pos_of_ne_zero hs
    · rw [ha] at hnone
      exact absurd hnone (by simp)

/-- Witness for `buy_sell_positivity_checked_on_scaled_amount` at the
spec's concrete buy scenario. -/
theorem buy_sell_positivity_checked_on_scaled_amount_w :
    buildBuy reqBuy1 (some stConcrete) = .ok instrBuy1 ∧
    0 < tokenAmountWithDecimalsBuy stConcrete.virtualSolReserves
          stConcrete.virtualTokenReserves (reqBuy1.solAmount * LAMPORTS_PER_SOL) :=
  ⟨by decide,
   buy_sell_positivity_checked_on_scaled_amount.1 reqBuy1 stConcrete instrBuy1 (by decide)⟩

/-! ## C3: round-trip no-arbitrage -/

/-- C3 failing input: at reserves x = 2000, y = 21 (k = x·y = 42000), paying
Δx = 100 buys `tokenAmountWithDecimalsBuy 2000 21 100 = 1` scaled token unit,
yet `tokenAmountWithDecimalsSell 2000 21 101 = 1` — one scaled unit already
suffices for a sell-by-SOL of 101 > 100 lamports at the same reserves, because
the sell-side token requirement is truncated downward.  This violates the
spec's round-trip property that the obtainable counter-amount never exceeds
the SOL paid in. -/
theorem roundtrip_profit_failing_input_eval :
    tokenAmountWithDecimalsBuy 2000 21 100 = 1 ∧
    tokenAmountWithDecimalsSell 2000 21 101 = 1 ∧
    tokenAmountWithDecimalsSell 2000 21 101 ≤ tokenAmountWithDecimalsBuy 2000 21 100 ∧
    0 < tokenAmountWithDecimalsSell 2000 21 101 ∧
    100 < 101 := by decide

/-- The intended property holds when the sell-side requirement is compared
without downward truncation: if `dx' * y ≤ Δy * (x - dx')` exactly for the
bought `Δy`, then `dx' ≤ dx` — no round-trip profit. -/
theorem exact_sell_requirement_prevents_roundtrip_profit
    (x y dx dx' : Nat) (hy : 0 < y) (hx : 0 < x)
    (hsell : dx' * y ≤ tokenAmountWithDecimalsBuy x y dx * (x - dx')) : dx' ≤ dx := by
  have h1 : tokenAmountWithDecimalsBuy x y dx * (x + dx) ≤ dx * y :=
    Nat.div_mul_le_self (dx * y) (x + dx)
  have h2 : dx' * y * (x + dx) ≤ dx * y * (x - dx') := by
    calc dx' * y * (x + dx)
        ≤ tokenAmountWithDecimalsBuy x y dx * (x - dx') * (x + dx) :=
          Nat.mul_le_mul_right _ hsell
      _ = tokenAmountWithDecimalsBuy x y dx * (x + dx) * (x - dx') := by ring
      _ ≤ dx * y * (x - dx') := Nat.mul_le_mul_right _ h1
  have h3 : y * (dx' * (x + dx)) ≤ y * (dx * (x - dx')) := by
    calc y * (dx' * (x + dx)) = dx' * y * (x + dx) := by ring
      _ ≤ dx * y * (x - dx') := h2
      _ = y * (dx * (x - dx')) := by ring
  have h4 : dx' * (x + dx) ≤ dx * (x - dx') := Nat.le_of_mul_le_mul_left h3 hy
  have h5 : dx' * x ≤ dx * x := by
    calc dx' * x ≤ dx' * (x + dx) := Nat.mul_le_mul_left _ (Nat.le_add_right _ _)
      _ ≤ dx * (x - dx') := h4
      _ ≤ dx * x := Nat.mul_le_mul_left _ (Nat.sub_le _ _)
  exact Nat.le_of_mul_le_mul_right h5 hx

/-! ## C4: lifecycle gating of graduate and SAFE generation -/

/-- A Transition-status state whose other fields are the concrete fixture's. -/
def stTransition : LaunchpadState := { stConcrete with status := .Transition }

/-- A Safe-status state whose other fields are the concrete fixture's. -/
def stSafe : LaunchpadState := { stConcrete with status := .Safe }

def reqGrad : GraduateRequestBody := ⟨"State1111111111111111111111111111111111111"⟩

/-- C4 counterexample: with an empty duplicate-suppression cache, a
check-and-generate-safe request on a state whose status is Safe (not
Transition) reaches the document-generation bridge instead of failing with a
StateError — refuting the claim that the bridge is called only when the
status is Transition. -/
theorem check_and_generate_calls_bridge_in_safe_status :
    stSafe.status ≠ LaunchpadStatus.Transition ∧
    checkAndGenerateSafe reqGrad none (some stSafe) =
      .callBridge ⟨"State1111111111111111111111111111111111111", 0, 0, 0, 0⟩ := by decide

/-- C4 amended: the graduate and generate-safe routes fail with a StateError
naming the current status whenever the status is not Transition, never
reaching the submitter or the bridge; the check-and-generate-safe route,
however, calls the document-generation bridge when the status is Transition
or Safe (on a cache miss), and for any other status returns a success
"no action needed" response naming the status rather than a StateError. -/
theorem lifecycle_gate_amended :
    (∀ (req : GraduateRequestBody) (held : String) (st : LaunchpadState),
        st.status ≠ .Transition →
        graduate req held (some st) =
          .wrongStatus st.status
            ("Launchpad must be in Transition state to graduate. Current state: " ++
              statusName st.status)) ∧
    (∀ (req : GraduateRequestBody) (st : LaunchpadState),
        st.status ≠ .Transition →
        generateSafe req (some st) =
          .wrongStatus st.status
            ("Launchpad must be in Transition state to generate SAFE. Current state: " ++
              statusName st.status)) ∧
    (∀ (req : GraduateRequestBody) (st : LaunchpadState),
        st.status = .Transition ∨ st.status = .Safe →
        checkAndGenerateSafe req none (some st) =
          .callBridge ⟨req.launchpadStateAddress, st.solRaised, st.tokensSold,
                       st.solRaiseTarget, st.tokensForSale⟩) ∧
    (∀ (req : GraduateRequestBody) (st : LaunchpadState),
        st.status = .Trading →
        checkAndGenerateSafe req none (some st) = .noAction st.status) := by
  refine ⟨?_, ?_, ?_, ?_⟩
  · intro req held st hst
    show graduateWithState req held st = _
    unfold graduateWithState
    rw [if_pos hst]
  · intro req st hst
    show generateSafeWithState req st = _
    unfold generateSafeWithState
    rw [if_pos hst]
  · intro req st hst
    show checkAndGenerateWithState req st = _
    unfold checkAndGenerateWithState
    rw [if_pos hst]
  · intro req st hst
    show checkAndGenerateWithState req st = _
    unfold checkAndGenerateWithState
    rw [if_neg (by simp [hst])]

/-- Witness for `lifecycle_gate_amended`: a graduate request on a
Trading-status state fails with the StateError naming Trading. -/
theorem lifecycle_gate_amended_w :
    stConcrete.status ≠ LaunchpadStatus.Transition ∧
    graduate reqGrad "Auth11111111111111111111111111111111111111" (some stConcrete) =
      .wrongStatus stConcrete.status
        ("Launchpad must be in Transition state to graduate. Current state: " ++
          statusName stConcrete.status) :=
  ⟨by decide,
   lifecycle_gate_amended.1 reqGrad "Auth11111111111111111111111111111111111111" stConcrete
     (by decide)⟩

/-! ## C5: graduate authority check -/

/-- C5: a graduate request on a Transition-status state whose recorded
platform authority differs from the held authority key fails with an
AuthorizationError carrying both addresses, and in particular is never the
`submit` outcome — the submission primitive is not reached. -/
theorem graduate_authority_mismatch_never_submits :
    ∀ (req : GraduateRequestBody) (held : String) (st : LaunchpadState),
      st.status = .Transition → st.platformAuthority ≠ held →
      graduate req held (some st) = .authorityMismatch st.platformAuthority held ∧
      ∀ (instr : Instruction) (signer : String),
        graduate req held (some st) ≠ .submit instr signer := by
  intro req held st hst hauth
  have hg : graduate req held (some st) = .authorityMismatch st.platformAuthority held := by
    show graduateWithState req held st = _
    unfold graduateWithState
    rw [if_neg (by simp [hst]), if_pos hauth]
  exact ⟨hg, fun instr signer hs => by rw [hg] at hs; exact absurd hs (by simp)⟩

/-- Witness for `graduate_authority_mismatch_never_submits`: the recorded
authority of `stTransition` differs from the held key "Attacker...". -/
theorem graduate_authority_mismatch_never_submits_w :
    (stTransition.status = LaunchpadStatus.Transition ∧
      stTransition.platformAuthority ≠ "Attacker11111111111111111111111111111111111") ∧
    graduate reqGrad "Attacker11111111111111111111111111111111111" (some stTransition) =
      .authorityMismatch stTransition.platformAuthority
        "Attacker11111111111111111111111111111111111" :=
  ⟨⟨by decide, by decide⟩,
   (graduate_authority_mismatch_never_submits reqGrad
     "Attacker11111111111111111111111111111111111" stTransition (by decide) (by decide)).1⟩

/-! ## C6: sell amount-field validation -/

/-- A sell request carrying both amount fields, with `tokenAmount` holding the
falsy value 0. -/
def reqSellBothZero : SellRequestBody :=
  ⟨"State1111111111111111111111111111111111111", some 0, some 2,
   "Se11er111111111111111111111111111111111111"⟩

/-- C6 counterexample: a sell request presenting both `tokenAmount` (= 0) and
`solAmount` (= 2) is not rejected with a ValidationError — because the both-
present check uses JavaScript truthiness and 0 is falsy, the handler proceeds
to the state fetch, whose result (here: account not found) determines the
outcome.  This refutes the claim that presenting both fields always fails
before any network fetch. -/
theorem sell_with_both_fields_reaches_fetch :
    buildSell reqSellBothZero none = .stateNotFound ∧
    buildSell reqSellBothZero (some stConcrete) ≠ .bothAmountsProvided ∧
    buildSell reqSellBothZero (some stConcrete) ≠ .neitherAmountProvided := by decide

/-- C6 amended: presence of the two amount fields is judged by JavaScript
truthiness (a field holding 0 counts as absent): when both fields are truthy,
or neither is, the sell handler fails with the corresponding ValidationError
uniformly in the fetched state — i.e. before and independently of the network
fetch — and no instruction is produced. -/
theorem sell_amount_validation_by_truthiness :
    (∀ (req : SellRequestBody),
        truthy req.tokenAmount = true → truthy req.solAmount = true →
        ∀ (fetched : Option LaunchpadState),
          buildSell req fetched = .bothAmountsProvided) ∧
    (∀ (req : SellRequestBody),
        truthy req.tokenAmount = false → truthy req.solAmount = false →
        ∀ (fetched : Option LaunchpadState),
          buildSell req fetched = .neitherAmountProvided) := by
  constructor
  · intro req ht hs fetched
    unfold buildSell
    rw [ht, hs]
    rfl
  · intro req ht hs fetched
    unfold buildSell
    rw [ht, hs]
    rfl

/-- Witness for `sell_amount_validation_by_truthiness`: both fields truthy. -/
theorem sell_amount_validation_by_truthiness_w :
    (truthy (some 5) = true ∧ truthy (some 2) = true) ∧
    buildSell ⟨"State1111111111111111111111111111111111111", some 5, some 2,
               "Se11er111111111111111111111111111111111111"⟩ none =
      .bothAmountsProvided :=
  ⟨⟨by decide, by decide⟩,
   sell_amount_validation_by_truthiness.1
     ⟨"State1111111111111111111111111111111111111", some 5, some 2,
      "Se11er111111111111111111111111111111111111"⟩ (by decide) (by decide) none⟩

/-! ## C7: sell-by-SOL reserve bound -/

/-- C7: a sell-by-SOL request whose lamport amount is at least the virtual SOL
reserves never yields an instruction: every outcome on such a request is an
error, and (contrapositively) the inverse-swap quotient reaches an instruction
only under `Δx < virtualSolReserves`. -/
theorem sell_by_sol_rejects_amount_at_least_reserves :
    ∀ (req : SellRequestBody) (st : LaunchpadState) (a : Nat),
      req.solAmount = some a →
      st.virtualSolReserves ≤ a * LAMPORTS_PER_SOL →
      ∀ (instr : Instruction), buildSell req (some st) ≠ .ok instr := by
  intro req st a ha hge instr h
  obtain ⟨m, v, hm, hv, hcase⟩ := buildSell_ok_elim req st instr h
  rcases hcase with ⟨a', ha', hx, hy, hr, hs, hi⟩ | ⟨hnone, t, ht, hi⟩
  · rw [ha] at ha'
    injection ha' with ha'
    subst ha'
    exact absurd hr (Nat.not_lt.mpr hge)
  · rw [ha] at hnone
    exact absurd hnone (by simp)

/-- Witness for `sell_by_sol_rejects_amount_at_least_reserves`: requesting 31
SOL against 30 SOL of virtual reserves. -/
theorem sell_by_sol_rejects_amount_at_least_reserves_w :
    ((⟨"State1111111111111111111111111111111111111", none, some 31,
       "Se11er111111111111111111111111111111111111"⟩ : SellRequestBody).solAmount = some 31 ∧
      stConcrete.virtualSolReserves ≤ 31 * LAMPORTS_PER_SOL) ∧
    buildSell ⟨"State1111111111111111111111111111111111111", none, some 31,
               "Se11er111111111111111111111111111111111111"⟩ (some stConcrete) ≠
      .ok instrBuy1 :=
  ⟨⟨rfl, by decide⟩,
   sell_by_sol_rejects_amount_at_least_reserves
     ⟨"State1111111111111111111111111111111111111", none, some 31,
      "Se11er111111111111111111111111111111111111"⟩ stConcrete 31 rfl (by decide) instrBuy1⟩

/-! ## C8: decoder behaviour on short buffers -/

/-- A buffer holding the full layout with empty strings: 8-byte discriminator,
32-byte authority, three zero-length strings (4 bytes each), totalSupply and
tokensForSale (8 bytes each), initialPrice (8), slope (16), solRaised (8) —
100 bytes of zeros — followed by the 8-byte tokensSold field encoding 42. -/
def fullBuffer : List Nat := List.replicate 100 0 ++ (42 :: List.replicate 7 0)

/-- `fullBuffer` truncated right before the tokensSold field. -/
def truncatedBuffer : List Nat := List.replicate 100 0

/-- C8 counterexample: `fullBuffer` decodes to tokensSoldRaw = 42, but its
truncation before the tokensSold field decodes WITHOUT error to
tokensSoldRaw = 0 — `Buffer.slice` clamps instead of throwing, so a buffer
too short for the final 8-byte field yields a silently wrong value, refuting
the claim that such buffers fail with a DecodeError. -/
theorem decode_truncated_buffer_silently_returns_zero :
    decodeLaunchpadState fullBuffer = .ok ⟨0, 0, 42⟩ ∧
    decodeLaunchpadState truncatedBuffer = .ok ⟨0, 0, 0⟩ ∧
    truncatedBuffer = fullBuffer.take 100 := ⟨rfl, rfl, rfl⟩

/-- C8 amended: the decoder fails with a DecodeError only when a 4-byte
length-prefix read (`readUInt32LE`) falls outside the buffer — in particular
every buffer shorter than 44 bytes is rejected — while the trailing
fixed-width fields are read with clamped slices, so a buffer truncated just
before the tokensSold field still decodes, with tokensSoldRaw = 0. -/
theorem decode_short_buffer_behavior :
    (∀ (data : List Nat), data.length < 44 →
        decodeLaunchpadState data = .error "readUInt32LE out of range") ∧
    decodeLaunchpadState truncatedBuffer = .ok ⟨0, 0, 0⟩ := by
  constructor
  · intro data h
    have h44 : ¬ (8 + 32 + 4 ≤ data.length) := by omega
    simp only [decodeLaunchpadState, readUInt32LE, h44, if_false, reduceIte]
    rfl
  · rfl

/-- Witness for `decode_short_buffer_behavior`: the empty buffer. -/
theorem decode_short_buffer_behavior_w :
    ([] : List Nat).length < 44 ∧
    decodeLaunchpadState [] = .error "readUInt32LE out of range" :=
  ⟨by decide, decode_short_buffer_behavior.1 [] (by decide)⟩

/-! ## C9: fixed account lists -/

/-- C9: every successfully built buy, sell, and graduate instruction carries
exactly the protocol-fixed ordered account list with the fixed signer and
writability flags; no reordering, dropping, or adding of accounts. -/
theorem instruction_account_lists_fixed :
    (∀ (req : BuyRequestBody) (st : LaunchpadState) (m v : String) (instr : Instruction),
        st.mint = some m → st.tokenVault = some v →
        buildBuy req (some st) = .ok instr →
        instr.keys =
          [ ⟨.base58 req.launchpadStateAddress, false, true⟩,
            ⟨.pda LAUNCHPAD_PROGRAM_ADDRESS "launchpad_authority" req.launchpadStateAddress,
              false, false⟩,
            ⟨.pda LAUNCHPAD_PROGRAM_ADDRESS "sol_vault" req.launchpadStateAddress, false, true⟩,
            ⟨.base58 v, false, true⟩,
            ⟨.base58 m, false, true⟩,
            ⟨.base58 req.buyer, true, true⟩,
            ⟨.ata m req.buyer, false, true⟩,
            ⟨.base58 SYSTEM_PROGRAM_ID, false, false⟩,
            ⟨.base58 TOKEN_PROGRAM_ID, false, false⟩,
            ⟨.base58 ASSOCIATED_TOKEN_PROGRAM, false, false⟩ ]) ∧
    (∀ (req : SellRequestBody) (st : LaunchpadState) (m v : String) (instr : Instruction),
        st.mint = some m → st.tokenVault = some v →
        buildSell req (some st) = .ok instr →
        instr.keys =
          [ ⟨.base58 req.launchpadStateAddress, false, true⟩,
            ⟨.pda LAUNCHPAD_PROGRAM_ADDRESS "sol_vault" req.launchpadStateAddress, false, true⟩,
            ⟨.base58 v, false, true⟩,
            ⟨.base58 m, false, true⟩,
            ⟨.base58 req.seller, true, true⟩,
            ⟨.ata m req.seller, false, true⟩,
            ⟨.base58 SYSTEM_PROGRAM_ID, false, false⟩,
            ⟨.base58 TOKEN_PROGRAM_ID, false, false⟩,
            ⟨.base58 ASSOCIATED_TOKEN_PROGRAM, false, false⟩ ]) ∧
    (∀ (req : GraduateRequestBody) (held : String) (st : LaunchpadState)
        (instr : Instruction) (signer : String),
        graduate req held (some st) = .submit instr signer →
        instr.keys =
          [ ⟨.base58 req.launchpadStateAddress, false, true⟩,
            ⟨.base58 held, true, true⟩ ]) := by
  refine ⟨?_, ?_, ?_⟩
  · intro req st m v instr hm hv h
    obtain ⟨m', v', hm', hv', hx, hy, hs, hi⟩ := buildBuy_ok_elim req st instr h
    rw [hm] at hm'
    rw [hv] at hv'
    injection hm' with hm'
    injection hv' with hv'
    subst hm'
    subst hv'
    rw [hi]
    rfl
  · intro req st m v instr hm hv h
    obtain ⟨m', v', hm', hv', hcase⟩ := buildSell_ok_elim req st instr h
    rw [hm] at hm'
    rw [hv] at hv'
    injection hm' with hm'
    injection hv' with hv'
    subst hm'
    subst hv'
    rcases hcase with ⟨a, ha, hx, hy, hr, hs, hi⟩ | ⟨hnone, t, ht, hi⟩
    · rw [hi]
      rfl
    · rw [hi]
      rfl
  · intro req held st instr signer h
    obtain ⟨hst, hauth, hsig, hi⟩ := graduate_submit_elim req held st instr signer h
    rw [hi]

/-- Witness for `instruction_account_lists_fixed` at the concrete buy. -/
theorem instruction_account_lists_fixed_w :
    (stConcrete.mint = some "Mint11111111111111111111111111111111111111" ∧
      stConcrete.tokenVault = some "Vau1t1111111111111111111111111111111111111" ∧
      buildBuy reqBuy1 (some stConcrete) = .ok instrBuy1) ∧
    instrBuy1.keys =
      [ ⟨.base58 reqBuy1.launchpadStateAddress, false, true⟩,
        ⟨.pda LAUNCHPAD_PROGRAM_ADDRESS "launchpad_authority" reqBuy1.launchpadStateAddress,
          false, false⟩,
        ⟨.pda LAUNCHPAD_PROGRAM_ADDRESS "sol_vault" reqBuy1.launchpadStateAddress, false, true⟩,
        ⟨.base58 "Vau1t1111111111111111111111111111111111111", false, true⟩,
        ⟨.base58 "Mint11111111111111111111111111111111111111", false, true⟩,
        ⟨.base58 reqBuy1.buyer, true, true⟩,
        ⟨.ata "Mint11111111111111111111111111111111111111" reqBuy1.buyer, false, true⟩,
        ⟨.base58 SYSTEM_PROGRAM_ID, false, false⟩,
        ⟨.base58 TOKEN_PROGRAM_ID, false, false⟩,
        ⟨.base58 ASSOCIATED_TOKEN_PROGRAM, false, false⟩ ] :=
  ⟨⟨by decide, by decide, by decide⟩,
   instruction_account_lists_fixed.1 reqBuy1 stConcrete
     "Mint11111111111111111111111111111111111111"
     "Vau1t1111111111111111111111111111111111111" instrBuy1
     (by decide) (by decide) (by decide)⟩

/-! ## C10: independence from k -/

/-- C10: the buy and sell handlers never consult the fetched `k` field (or
any field other than the reserves, mint and token vault): two states agreeing
on `virtualSolReserves`, `virtualTokenReserves`, `mint` and `tokenVault`
produce identical outcomes — the same instruction or the same error — for
every buy and every sell request, whatever their `k` (and remaining fields). -/
theorem swap_outcomes_independent_of_k :
    ∀ (breq : BuyRequestBody) (sreq : SellRequestBody) (s₁ s₂ : LaunchpadState),
      s₁.virtualSolReserves = s₂.virtualSolReserves →
      s₁.virtualTokenReserves = s₂.virtualTokenReserves →
      s₁.mint = s₂.mint →
      s₁.tokenVault = s₂.tokenVault →
      buildBuy breq (some s₁) = buildBuy breq (some s₂) ∧
      buildSell sreq (some s₁) = buildSell sreq (some s₂) := by
  intro breq sreq s₁ s₂ h1 h2 h3 h4
  obtain ⟨st₁, vs₁, vt₁, k₁, m₁, tv₁, sr₁, ts₁, srt₁, tfs₁, pa₁⟩ := s₁
  obtain ⟨st₂, vs₂, vt₂, k₂, m₂, tv₂, sr₂, ts₂, srt₂, tfs₂, pa₂⟩ := s₂
  simp only at h1 h2 h3 h4
  subst h1
  subst h2
  subst h3
  subst h4
  exact ⟨rfl, rfl⟩

/-- A copy of the concrete fixture with a different (inconsistent) `k`. -/
def stConcreteBadK : LaunchpadState := { stConcrete with k := 7 }

/-- Witness for `swap_outcomes_independent_of_k`: the concrete state and its
copy with `k = 7` yield identical buy outcomes. -/
theorem swap_outcomes_independent_of_k_w :
    (stConcrete.virtualSolReserves = stConcreteBadK.virtualSolReserves ∧
      stConcrete.virtualTokenReserves = stConcreteBadK.virtualTokenReserves ∧
      stConcrete.mint = stConcreteBadK.mint ∧
      stConcrete.tokenVault = stConcreteBadK.tokenVault ∧
      stConcrete.k ≠ stConcreteBadK.k) ∧
    buildBuy reqBuy1 (some stConcrete) = buildBuy reqBuy1 (some stConcreteBadK) :=
  ⟨⟨by decide, by decide, by decide, by decide, by decide⟩,
   (swap_outcomes_independent_of_k reqBuy1 reqSellBothZero stConcrete stConcreteBadK
     (by decide) (by decide) (by decide) (by decide)).1⟩

end Launchpad
